import Mathlib

/-!
Shallow embedding of the invoicing API (FastAPI + sqlite routes in
`app/routes/invoices.py`, `app/routes/clients.py`, `app/routes/products.py`,
schema from `migrations/002_invoicing_schema_and_seed.py`).

Modelling conventions:
* sqlite tables are Lean lists of row structures kept in rowid (insertion)
  order; `SELECT ... WHERE id = ?` on a PRIMARY KEY column is `List.find?`,
  `ORDER BY id` is an insertion sort by the id key, `LIMIT ? OFFSET ?` is
  `take`/`drop`.
* Python `float` money amounts and quantities are modelled as exact
  rationals; `round(x, 2)` is round-half-to-even at two decimals, which is
  Python's rounding mode on exact values.  `Decimal` accumulation is exact
  rational addition.
* ids are `Int` (sqlite INTEGER); dates travel as their ISO strings since
  the routes only ever call `.isoformat()` on them.
* An exception raised by a route is an `HTTPError` value; the state
  component returned next to it is the database as of the raise point
  (no statement after the raise executes).
-/

set_option allowUnsafeReducibility true in
attribute [semireducible] Rat.mul Rat.add Rat.sub Rat.div Rat.inv Rat.ofScientific

deriving instance DecidableEq for Except

namespace Invoicing

/-- Floor of a rational as an integer (`den` is positive, so `fdiv` is floor). -/
def qfloor (q : ℚ) : ℤ := q.num.fdiv q.den

/-- Round-half-to-even to the nearest integer, Python's `round` on exact values. -/
def roundHalfEvenZ (q : ℚ) : ℤ :=
  let f := qfloor q
  let frac := q - (f : ℚ)
  if frac < 1/2 then f
  else if 1/2 < frac then f + 1
  else if 2 ∣ f then f else f + 1

/-- Python's `round(x, 2)`: round-half-to-even at two decimal places. -/
def round2 (q : ℚ) : ℚ := (roundHalfEvenZ (100 * q) : ℚ) / 100

-- --- Row types (schema of migration 002) ---

structure ClientRow where
  id : Int
  name : String
  address : String
  company_registration_no : String
deriving Repr, DecidableEq

structure ProductRow where
  id : Int
  name : String
  price : ℚ
deriving Repr, DecidableEq

structure InvoiceRow where
  id : Int
  invoice_no : String
  issue_date : String
  due_date : String
  client_id : Int
  address : String
  tax : ℚ
  total : ℚ
deriving Repr, DecidableEq

structure InvoiceItemRow where
  invoice_id : Int
  product_id : Int
  quantity : ℚ
  unit_price : ℚ
  line_total : ℚ
deriving Repr, DecidableEq

/-- The sqlite database: tables in rowid order plus the next AUTOINCREMENT
id for `invoices` (the only table the API inserts into). -/
structure DB where
  clients : List ClientRow
  products : List ProductRow
  invoices : List InvoiceRow
  invoice_items : List InvoiceItemRow
  nextInvoiceId : Int
deriving Repr, DecidableEq

/-- `SELECT ... FROM clients WHERE id = ?` (id is a PRIMARY KEY). -/
def findClient (db : DB) (cid : Int) : Option ClientRow :=
  db.clients.find? (fun c => c.id == cid)

/-- `SELECT ... FROM products WHERE id = ?` (id is a PRIMARY KEY). -/
def findProduct (db : DB) (pid : Int) : Option ProductRow :=
  db.products.find? (fun p => p.id == pid)

/-- `SELECT ... FROM invoices WHERE id = ?` (id is a PRIMARY KEY). -/
def findInvoice (db : DB) (iid : Int) : Option InvoiceRow :=
  db.invoices.find? (fun i => i.id == iid)

/-- Well-formedness of reachable stores: AUTOINCREMENT never hands out an id
already present, and items only reference already-created invoices. -/
def WF (db : DB) : Prop :=
  (∀ r ∈ db.invoices, r.id < db.nextInvoiceId) ∧
  (∀ it ∈ db.invoice_items, it.invoice_id < db.nextInvoiceId)

-- --- Request / response shapes (pydantic models) ---

structure InvoiceItemCreate where
  product_id : Int
  quantity : ℚ
deriving Repr, DecidableEq

structure InvoiceCreate where
  invoice_no : String
  issue_date : String
  due_date : String
  client_id : Int
  address : String
  items : List InvoiceItemCreate
  tax : ℚ
deriving Repr, DecidableEq

structure InvoiceItemResponse where
  product_id : Int
  product_name : String
  quantity : ℚ
  unit_price : ℚ
  line_total : ℚ
deriving Repr, DecidableEq

structure ClientRef where
  id : Int
  name : String
  address : String
  company_registration_no : String
deriving Repr, DecidableEq

structure InvoiceResponse where
  id : Int
  invoice_no : String
  issue_date : String
  due_date : String
  client : ClientRef
  address : String
  items : List InvoiceItemResponse
  tax : ℚ
  total : ℚ
deriving Repr, DecidableEq

/-- An HTTP error response raised by a route (`HTTPException`). -/
structure HTTPError where
  status : Nat
  detail : String
deriving Repr, DecidableEq

def _row_to_client_ref (c : ClientRow) : ClientRef :=
  ⟨c.id, c.name, c.address, c.company_registration_no⟩

-- --- createInvoice (app/routes/invoices.py, create_invoice) ---

/-- The pricing loop of `create_invoice`: resolve each product in input
order, compute `line_total = round(unit_price * quantity, 2)`, add it to the
exact (`Decimal`) subtotal accumulator and append the priced line. -/
def priceLines (db : DB) (items : List InvoiceItemCreate) (subtotal : ℚ)
    (line_rows : List InvoiceItemResponse) :
    Except HTTPError (ℚ × List InvoiceItemResponse) :=
  match items with
  | [] => .ok (subtotal, line_rows)
  | line :: rest =>
    match findProduct db line.product_id with
    | none => .error ⟨400, "Invalid product_id: " ++ toString line.product_id⟩
    | some prod =>
      let unit_price := prod.price
      let qty := line.quantity
      let line_total := round2 (unit_price * qty)
      priceLines db rest (subtotal + line_total)
        (line_rows ++ [⟨line.product_id, prod.name, qty, unit_price, line_total⟩])

/-- `INSERT INTO invoices ...`: fails on the UNIQUE constraint on
`invoice_no`, otherwise appends the row and bumps the AUTOINCREMENT id. -/
def insertInvoice (db : DB) (row : InvoiceRow) : Except String DB :=
  if db.invoices.any (fun r => r.invoice_no == row.invoice_no) then
    .error "UNIQUE constraint failed: invoices.invoice_no"
  else
    .ok { db with invoices := db.invoices ++ [row],
                  nextInvoiceId := db.nextInvoiceId + 1 }

/-- `POST /invoices` body handler (after pydantic validation).  Returns the
store as of the exit point together with the outcome. -/
def create_invoice (db : DB) (body : InvoiceCreate) :
    DB × Except HTTPError InvoiceResponse :=
  match findClient db body.client_id with
  | none => (db, .error ⟨400, "Invalid client_id"⟩)
  | some client_row =>
    match priceLines db body.items 0 [] with
    | .error e => (db, .error e)
    | .ok (subtotal, line_rows) =>
      let total := round2 (subtotal + body.tax)
      let row : InvoiceRow :=
        { id := db.nextInvoiceId, invoice_no := body.invoice_no,
          issue_date := body.issue_date, due_date := body.due_date,
          client_id := body.client_id, address := body.address,
          tax := body.tax, total := total }
      match insertInvoice db row with
      | .error msg => (db, .error ⟨500, msg⟩)
      | .ok db1 =>
        let db2 :=
          { db1 with invoice_items := db1.invoice_items ++
              line_rows.map (fun lr =>
                ⟨row.id, lr.product_id, lr.quantity, lr.unit_price, lr.line_total⟩) }
        (db2, .ok
          { id := row.id, invoice_no := body.invoice_no,
            issue_date := body.issue_date, due_date := body.due_date,
            client := _row_to_client_ref client_row, address := body.address,
            items := line_rows, tax := body.tax, total := total })

-- --- getInvoice (app/routes/invoices.py, get_invoice) ---

/-- `GET /invoices/{id}`: join the invoice to its client (an inner join, so
a dangling `client_id` yields no row), then join the items to product names. -/
def get_invoice (db : DB) (invoice_id : Int) : Except HTTPError InvoiceResponse :=
  match findInvoice db invoice_id with
  | none => .error ⟨404, "Invoice not found"⟩
  | some i =>
    match findClient db i.client_id with
    | none => .error ⟨404, "Invoice not found"⟩
    | some c =>
      let item_rows := db.invoice_items.filter (fun it => it.invoice_id == invoice_id)
      let items := item_rows.filterMap (fun it =>
        (findProduct db it.product_id).map (fun p =>
          ({ product_id := it.product_id, product_name := p.name,
             quantity := it.quantity, unit_price := it.unit_price,
             line_total := it.line_total } : InvoiceItemResponse)))
      .ok { id := i.id, invoice_no := i.invoice_no, issue_date := i.issue_date,
            due_date := i.due_date, client := _row_to_client_ref c,
            address := i.address, items := items, tax := i.tax, total := i.total }

-- --- deleteInvoice (app/routes/invoices.py, delete_invoice) ---

/-- `DELETE /invoices/{id}`: 404 when absent, otherwise delete the items of
that invoice and then the invoice row. -/
def delete_invoice (db : DB) (invoice_id : Int) : DB × Except HTTPError Unit :=
  match findInvoice db invoice_id with
  | none => (db, .error ⟨404, "Invoice not found"⟩)
  | some _ =>
    ({ db with
        invoice_items := db.invoice_items.filter (fun it => !(it.invoice_id == invoice_id)),
        invoices := db.invoices.filter (fun i => !(i.id == invoice_id)) },
     .ok ())

-- --- List endpoints (ORDER BY id, LIMIT/OFFSET pagination) ---

/-- Insert an element into a list sorted by an integer key (`ORDER BY id`). -/
def insertByKey {α : Type} (key : α → Int) (a : α) : List α → List α
  | [] => [a]
  | b :: l => if key a ≤ key b then a :: b :: l else b :: insertByKey key a l

/-- Sort a table by an integer key: the semantics of `ORDER BY id`. -/
def sortByKey {α : Type} (key : α → Int) : List α → List α
  | [] => []
  | a :: l => insertByKey key a (sortByKey key l)

/-- The pagination block every list endpoint returns. -/
structure Pagination where
  total : Nat
  page : Nat
  page_size : Nat
  total_pages : Nat
deriving Repr, DecidableEq

/-- The shared `LIMIT ? OFFSET ?` page computation of the list endpoints. -/
def pageOf {α : Type} (key : α → Int) (rows : List α) (page page_size : Nat) : List α :=
  ((sortByKey key rows).drop ((page - 1) * page_size)).take page_size

/-- The shared `total_pages` computation:
`(total + page_size - 1) // page_size if page_size else 0`. -/
def totalPagesOf (total page_size : Nat) : Nat :=
  if page_size ≠ 0 then (total + page_size - 1) / page_size else 0

/-- Row shape of one entry of `GET /invoices` (summary fields only). -/
structure InvoiceSummary where
  id : Int
  invoice_no : String
  issue_date : String
  due_date : String
  total : ℚ
deriving Repr, DecidableEq

structure InvoiceListResponse where
  invoices : List InvoiceSummary
  pagination : Pagination
deriving Repr, DecidableEq

structure ClientListResponse where
  clients : List ClientRef
  pagination : Pagination
deriving Repr, DecidableEq

/-- Row shape of one entry of `GET /products`. -/
structure ProductOut where
  id : Int
  name : String
  price : ℚ
deriving Repr, DecidableEq

structure ProductListResponse where
  products : List ProductOut
  pagination : Pagination
deriving Repr, DecidableEq

/-- `GET /invoices` handler body (after query-parameter validation). -/
def list_invoices (db : DB) (page page_size : Nat) : InvoiceListResponse :=
  let total := db.invoices.length
  let rows := pageOf (fun i => i.id) db.invoices page page_size
  { invoices := rows.map (fun r =>
      ⟨r.id, r.invoice_no, r.issue_date, r.due_date, r.total⟩),
    pagination := ⟨total, page, page_size, totalPagesOf total page_size⟩ }

/-- `GET /clients` handler body (after query-parameter validation). -/
def list_clients (db : DB) (page page_size : Nat) : ClientListResponse :=
  let total := db.clients.length
  let rows := pageOf (fun c => c.id) db.clients page page_size
  { clients := rows.map _row_to_client_ref,
    pagination := ⟨total, page, page_size, totalPagesOf total page_size⟩ }

/-- `GET /products` handler body (after query-parameter validation). -/
def list_products (db : DB) (page page_size : Nat) : ProductListResponse :=
  let total := db.products.length
  let rows := pageOf (fun p => p.id) db.products page page_size
  { products := rows.map (fun p => ⟨p.id, p.name, p.price⟩),
    pagination := ⟨total, page, page_size, totalPagesOf total page_size⟩ }

-- --- Request-schema boundary (pydantic / FastAPI Query validation) ---

/-- FastAPI `Query` constraints on the pagination parameters:
`page ≥ 1`, `1 ≤ page_size ≤ 100`.  Raw query values are integers. -/
def validListParams (page page_size : Int) : Bool :=
  1 ≤ page && 1 ≤ page_size && page_size ≤ 100

/-- Pydantic constraints on `InvoiceCreate`: `items` nonempty, every
`quantity > 0`, `tax ≥ 0`.  (`invoice_no` is a bare `str`: no constraint.) -/
def validInvoiceCreate (b : InvoiceCreate) : Bool :=
  1 ≤ b.items.length &&
  b.items.all (fun it => decide (0 < it.quantity)) &&
  decide (0 ≤ b.tax)

/-- The 422 response FastAPI produces when request validation fails. -/
def validationError : HTTPError := ⟨422, "Unprocessable Entity"⟩

/-- `POST /invoices` including the schema boundary: an invalid body is
rejected with 422 before the handler (and hence the store) is touched. -/
def post_invoices (db : DB) (body : InvoiceCreate) :
    DB × Except HTTPError InvoiceResponse :=
  if validInvoiceCreate body then create_invoice db body
  else (db, .error validationError)

/-- `GET /invoices` including the query-parameter boundary. -/
def get_invoices_route (db : DB) (page page_size : Int) :
    Except HTTPError InvoiceListResponse :=
  if validListParams page page_size then
    .ok (list_invoices db page.toNat page_size.toNat)
  else .error validationError

/-- `GET /clients` including the query-parameter boundary. -/
def get_clients_route (db : DB) (page page_size : Int) :
    Except HTTPError ClientListResponse :=
  if validListParams page page_size then
    .ok (list_clients db page.toNat page_size.toNat)
  else .error validationError

/-- `GET /products` including the query-parameter boundary. -/
def get_products_route (db : DB) (page page_size : Int) :
    Except HTTPError ProductListResponse :=
  if validListParams page page_size then
    .ok (list_products db page.toNat page_size.toNat)
  else .error validationError

-- --- Seed data of migration 002 (for concrete witnesses) ---

/-- The store right after `002_invoicing_schema_and_seed`: four products,
three clients, no invoices. -/
def seedDB : DB :=
  { clients :=
      [⟨1, "Acme Corp", "123 Main St, City A", "REG-001"⟩,
       ⟨2, "Beta Ltd", "456 Oak Ave, City B", "REG-002"⟩,
       ⟨3, "Gamma Inc", "789 Pine Rd, City C", "REG-003"⟩],
    products :=
      [⟨1, "Widget A", 10⟩,
       ⟨2, "Widget B", 25.50⟩,
       ⟨3, "Service Hour", 75⟩,
       ⟨4, "License Fee", 199⟩],
    invoices := [],
    invoice_items := [],
    nextInvoiceId := 1 }

-- --- Concrete data used to instantiate the theorems ---

/-- The create request of the spec's concrete scenario (test_api.py payload):
two Widget A at 10.00, one Widget B at 25.50, tax 5. -/
def body1 : InvoiceCreate :=
  { invoice_no := "INV-001", issue_date := "2025-02-01", due_date := "2025-02-28",
    client_id := 1, address := "123 Main St",
    items := [⟨1, 2⟩, ⟨2, 1⟩], tax := 5 }

/-- The store after `create_invoice seedDB body1`. -/
def dbINV1 : DB :=
  { seedDB with
      invoices := [⟨1, "INV-001", "2025-02-01", "2025-02-28", 1, "123 Main St", 5, 50.5⟩],
      invoice_items := [⟨1, 1, 2, 10, 20⟩, ⟨1, 2, 1, 25.5, 25.5⟩],
      nextInvoiceId := 2 }

/-- The response of `create_invoice seedDB body1`. -/
def respINV1 : InvoiceResponse :=
  { id := 1, invoice_no := "INV-001", issue_date := "2025-02-01",
    due_date := "2025-02-28",
    client := ⟨1, "Acme Corp", "123 Main St, City A", "REG-001"⟩,
    address := "123 Main St",
    items := [⟨1, "Widget A", 2, 10, 20⟩, ⟨2, "Widget B", 1, 25.5, 25.5⟩],
    tax := 5, total := 50.5 }

/-- Eleven one-line invoices, for the pagination scenario. -/
def bigDB : DB :=
  { seedDB with
      invoices := (List.range 11).map (fun n =>
        ⟨(n : Int) + 1, "INV-" ++ toString n, "2025-01-01", "2025-02-01", 1, "a", 0, 10⟩),
      nextInvoiceId := 12 }

/-- A corrupt store: one invoice whose `client_id` 99 matches no client. -/
def corruptDB : DB :=
  { seedDB with
      invoices := [⟨1, "INV-900", "2025-01-01", "2025-02-01", 99, "x", 0, 10⟩],
      nextInvoiceId := 2 }

/-- A syntactically valid create request whose `invoice_no` is empty. -/
def bodyEmptyNo : InvoiceCreate :=
  { invoice_no := "", issue_date := "2025-02-01", due_date := "2025-02-28",
    client_id := 1, address := "123 Main St",
    items := [⟨1, 2⟩], tax := 0 }

/-- A create request referencing client 99, which does not exist in the seed. -/
def bodyBadClient : InvoiceCreate :=
  { body1 with client_id := 99 }

/-- A create request whose second line references product 77, which does not
exist in the seed (the first line is valid). -/
def bodyBadProduct : InvoiceCreate :=
  { body1 with items := [⟨1, 2⟩, ⟨77, 1⟩] }

/-- The response `create_invoice` gives to `bodyEmptyNo`. -/
def respEmptyNo : InvoiceResponse :=
  { id := 1, invoice_no := "", issue_date := "2025-02-01", due_date := "2025-02-28",
    client := ⟨1, "Acme Corp", "123 Main St, City A", "REG-001"⟩,
    address := "123 Main St",
    items := [⟨1, "Widget A", 2, 10, 20⟩], tax := 0, total := 20 }

/-- How each priced line of the response is produced from a request line:
the product resolves, and the line carries its name, its price as
`unit_price`, the requested quantity, and the rounded `line_total`. -/
def PricedFrom (db : DB) (line : InvoiceItemCreate) (r : InvoiceItemResponse) : Prop :=
  ∃ prod, findProduct db line.product_id = some prod ∧
    r = ⟨line.product_id, prod.name, line.quantity, prod.price,
         round2 (prod.price * line.quantity)⟩

-- --- Supporting lemmas ---

theorem insertByKey_perm {α : Type} (key : α → Int) (a : α) (l : List α) :
    List.Perm (insertByKey key a l) (a :: l) := by
  induction l with
  | nil => simp [insertByKey]
  | cons b t ih =>
    simp only [insertByKey]
    split
    · exact List.Perm.refl _
    · exact (ih.cons b).trans (List.Perm.swap a b t)

theorem sortByKey_perm {α : Type} (key : α → Int) (l : List α) :
    List.Perm (sortByKey key l) l := by
  induction l with
  | nil => simp [sortByKey]
  | cons a t ih => exact (insertByKey_perm key a (sortByKey key t)).trans (ih.cons a)

theorem mem_insertByKey {α : Type} {key : α → Int} {a c : α} {l : List α} :
    c ∈ insertByKey key a l ↔ c = a ∨ c ∈ l := by
  rw [(insertByKey_perm key a l).mem_iff, List.mem_cons]

theorem sorted_insertByKey {α : Type} (key : α → Int) (a : α) {l : List α}
    (h : l.Sorted (fun x y => key x ≤ key y)) :
    (insertByKey key a l).Sorted (fun x y => key x ≤ key y) := by
  induction l with
  | nil => simp [insertByKey]
  | cons b t ih =>
    rw [List.sorted_cons] at h
    obtain ⟨hb, ht⟩ := h
    simp only [insertByKey]
    split
    · rename_i hab
      rw [List.sorted_cons]
      refine ⟨?_, List.sorted_cons.mpr ⟨hb, ht⟩⟩
      intro x hx
      rcases List.mem_cons.mp hx with rfl | hx
      · exact hab
      · exact le_trans hab (hb x hx)
    · rename_i hab
      rw [List.sorted_cons]
      refine ⟨?_, ih ht⟩
      intro x hx
      rcases mem_insertByKey.mp hx with rfl | hx
      · exact le_of_not_le hab
      · exact hb x hx

theorem sorted_sortByKey {α : Type} (key : α → Int) (l : List α) :
    (sortByKey key l).Sorted (fun x y => key x ≤ key y) := by
  induction l with
  | nil => simp [sortByKey]
  | cons a t ih => exact sorted_insertByKey key a ih

theorem find?_append_left_none {α : Type} {p : α → Bool} {l₁ l₂ : List α}
    (h : ∀ a ∈ l₁, p a = false) : (l₁ ++ l₂).find? p = l₂.find? p := by
  induction l₁ with
  | nil => rfl
  | cons a t ih =>
    rw [List.cons_append, List.find?_cons, h a (List.mem_cons_self a t)]
    exact ih (fun x hx => h x (List.mem_cons_of_mem a hx))

theorem filter_eq_nil_of_false {α : Type} {p : α → Bool} {l : List α}
    (h : ∀ a ∈ l, p a = false) : l.filter p = [] := by
  induction l with
  | nil => rfl
  | cons a t ih =>
    rw [List.filter_cons, h a (List.mem_cons_self a t)]
    exact ih (fun x hx => h x (List.mem_cons_of_mem a hx))

theorem filter_eq_self_of_true {α : Type} {p : α → Bool} {l : List α}
    (h : ∀ a ∈ l, p a = true) : l.filter p = l := by
  induction l with
  | nil => rfl
  | cons a t ih =>
    rw [List.filter_cons, h a (List.mem_cons_self a t)]
    simp only [if_true]
    rw [ih (fun x hx => h x (List.mem_cons_of_mem a hx))]

theorem filterMap_eq_self_of_some {α : Type} {f : α → Option α} {l : List α}
    (h : ∀ a ∈ l, f a = some a) : l.filterMap f = l := by
  induction l with
  | nil => rfl
  | cons a t ih =>
    rw [List.filterMap_cons, h a (List.mem_cons_self a t)]
    rw [ih (fun x hx => h x (List.mem_cons_of_mem a hx))]

theorem forall₂_exists_left {α β : Type} {R : α → β → Prop}
    {as : List α} {bs : List β} (h : List.Forall₂ R as bs) :
    ∀ b ∈ bs, ∃ a ∈ as, R a b := by
  induction h with
  | nil => intro b hb; cases hb
  | cons hR _ ih =>
    intro b hb
    rcases List.mem_cons.mp hb with rfl | hb
    · exact ⟨_, List.mem_cons_self _ _, hR⟩
    · obtain ⟨a, ha, hab⟩ := ih b hb
      exact ⟨a, List.mem_cons_of_mem _ ha, hab⟩

theorem priceLines_ok_shape (db : DB) :
    ∀ (items : List InvoiceItemCreate) (subtotal : ℚ) (acc : List InvoiceItemResponse)
      (s : ℚ) (rows : List InvoiceItemResponse),
      priceLines db items subtotal acc = .ok (s, rows) →
      ∃ newRows, rows = acc ++ newRows ∧
        s = subtotal + ((newRows.map (fun r => r.line_total)).sum) ∧
        List.Forall₂ (PricedFrom db) items newRows := by
  intro items
  induction items with
  | nil =>
    intro subtotal acc s rows h
    simp only [priceLines, Except.ok.injEq, Prod.mk.injEq] at h
    exact ⟨[], by simp [h.2.symm], by simp [h.1.symm], .nil⟩
  | cons line rest ih =>
    intro subtotal acc s rows h
    simp only [priceLines] at h
    cases hp : findProduct db line.product_id with
    | none => rw [hp] at h; cases h
    | some prod =>
      rw [hp] at h
      obtain ⟨newRows, hrows, hs, hall⟩ := ih _ _ _ _ h
      refine ⟨⟨line.product_id, prod.name, line.quantity, prod.price,
               round2 (prod.price * line.quantity)⟩ :: newRows, ?_, ?_, ?_⟩
      · rw [hrows, List.append_assoc, List.singleton_append]
      · rw [hs]; simp only [List.map_cons, List.sum_cons]; ring
      · exact .cons ⟨prod, hp, rfl⟩ hall

theorem priceLines_error_at (db : DB) :
    ∀ (pre : List InvoiceItemCreate) (bad : InvoiceItemCreate)
      (rest : List InvoiceItemCreate) (subtotal : ℚ) (acc : List InvoiceItemResponse),
      (∀ l ∈ pre, ∃ p, findProduct db l.product_id = some p) →
      findProduct db bad.product_id = none →
      priceLines db (pre ++ bad :: rest) subtotal acc =
        .error ⟨400, "Invalid product_id: " ++ toString bad.product_id⟩ := by
  intro pre
  induction pre with
  | nil =>
    intro bad rest subtotal acc _ hbad
    simp [priceLines, hbad]
  | cons l pre ih =>
    intro bad rest subtotal acc hpre hbad
    obtain ⟨p, hp⟩ := hpre l (List.mem_cons_self l pre)
    rw [List.cons_append]
    simp only [priceLines, hp]
    exact ih bad rest _ _ (fun x hx => hpre x (List.mem_cons_of_mem l hx)) hbad

theorem priceLines_ok_of_resolve (db : DB) :
    ∀ (items : List InvoiceItemCreate) (subtotal : ℚ) (acc : List InvoiceItemResponse),
      (∀ l ∈ items, ∃ p, findProduct db l.product_id = some p) →
      ∃ s rows, priceLines db items subtotal acc = .ok (s, rows) := by
  intro items
  induction items with
  | nil => intro subtotal acc _; exact ⟨subtotal, acc, rfl⟩
  | cons l rest ih =>
    intro subtotal acc hres
    obtain ⟨p, hp⟩ := hres l (List.mem_cons_self l rest)
    obtain ⟨s, rows, h⟩ := ih (subtotal + round2 (p.price * l.quantity))
      (acc ++ [⟨l.product_id, p.name, l.quantity, p.price, round2 (p.price * l.quantity)⟩])
      (fun x hx => hres x (List.mem_cons_of_mem l hx))
    refine ⟨s, rows, ?_⟩
    simp only [priceLines, hp]
    exact h

/-- Master shape lemma: everything a successful `create_invoice` returns and
persists, in terms of the client lookup and the pricing loop. -/
theorem create_invoice_ok (db : DB) (body : InvoiceCreate) (db2 : DB)
    (resp : InvoiceResponse)
    (h : create_invoice db body = (db2, .ok resp)) :
    ∃ c subtotal lineRows,
      findClient db body.client_id = some c ∧
      priceLines db body.items 0 [] = .ok (subtotal, lineRows) ∧
      resp = { id := db.nextInvoiceId, invoice_no := body.invoice_no,
               issue_date := body.issue_date, due_date := body.due_date,
               client := _row_to_client_ref c, address := body.address,
               items := lineRows, tax := body.tax,
               total := round2 (subtotal + body.tax) } ∧
      db2 = { clients := db.clients, products := db.products,
              invoices := db.invoices ++
                [{ id := db.nextInvoiceId, invoice_no := body.invoice_no,
                   issue_date := body.issue_date, due_date := body.due_date,
                   client_id := body.client_id, address := body.address,
                   tax := body.tax, total := round2 (subtotal + body.tax) }],
              invoice_items := db.invoice_items ++ lineRows.map (fun lr =>
                ⟨db.nextInvoiceId, lr.product_id, lr.quantity,
                 lr.unit_price, lr.line_total⟩),
              nextInvoiceId := db.nextInvoiceId + 1 } := by
  unfold create_invoice at h
  cases hc : findClient db body.client_id with
  | none => rw [hc] at h; simp at h
  | some c =>
    rw [hc] at h
    cases hpl : priceLines db body.items 0 [] with
    | error e => rw [hpl] at h; simp at h
    | ok val =>
      obtain ⟨subtotal, lineRows⟩ := val
      rw [hpl] at h
      by_cases hdup : db.invoices.any (fun r => r.invoice_no == body.invoice_no) = true
      · simp [insertInvoice, hdup] at h
      · simp only [insertInvoice, hdup, if_false, Bool.false_eq_true, if_neg,
          not_false_eq_true] at h
        simp only [Prod.mk.injEq, Except.ok.injEq] at h
        exact ⟨c, subtotal, lineRows, rfl, rfl, h.2.symm, h.1.symm⟩

theorem WF_seedDB : WF seedDB :=
  ⟨fun r hr => absurd hr (List.not_mem_nil r),
   fun it hi => absurd hi (List.not_mem_nil it)⟩

theorem find?_append_singleton {α : Type} (p : α → Bool) {l : List α} (a : α)
    (hl : ∀ x ∈ l, p x = false) (ha : p a = true) :
    (l ++ [a]).find? p = some a := by
  rw [find?_append_left_none hl]
  exact List.find?_cons_of_pos [] ha

/-- After a successful create, reading the invoice back returns exactly the
create response: the id resolves to the new row, the client join resolves
to the same client, and the item join reproduces the priced lines. -/
theorem get_after_create (db : DB) (body : InvoiceCreate) (db2 : DB)
    (resp : InvoiceResponse) (hwf : WF db)
    (h : create_invoice db body = (db2, .ok resp)) :
    get_invoice db2 resp.id = .ok resp := by
  obtain ⟨c, subtotal, lineRows, hc, hpl, hresp, hdb⟩ := create_invoice_ok db body db2 resp h
  obtain ⟨newRows, hrows, hs, hall⟩ := priceLines_ok_shape db _ _ _ _ _ hpl
  rw [List.nil_append] at hrows
  subst hrows
  subst hresp
  subst hdb
  have hfi : findInvoice
      { clients := db.clients, products := db.products,
        invoices := db.invoices ++
          [{ id := db.nextInvoiceId, invoice_no := body.invoice_no,
             issue_date := body.issue_date, due_date := body.due_date,
             client_id := body.client_id, address := body.address,
             tax := body.tax, total := round2 (subtotal + body.tax) }],
        invoice_items := db.invoice_items ++ lineRows.map (fun lr =>
          ⟨db.nextInvoiceId, lr.product_id, lr.quantity,
           lr.unit_price, lr.line_total⟩),
        nextInvoiceId := db.nextInvoiceId + 1 } db.nextInvoiceId =
      some { id := db.nextInvoiceId, invoice_no := body.invoice_no,
             issue_date := body.issue_date, due_date := body.due_date,
             client_id := body.client_id, address := body.address,
             tax := body.tax, total := round2 (subtotal + body.tax) } := by
    unfold findInvoice
    apply find?_append_singleton
    · intro x hx
      rw [beq_eq_false_iff_ne]
      exact Int.ne_of_lt (hwf.1 x hx)
    · exact beq_self_eq_true db.nextInvoiceId
  have hfc : findClient
      { clients := db.clients, products := db.products,
        invoices := db.invoices ++
          [{ id := db.nextInvoiceId, invoice_no := body.invoice_no,
             issue_date := body.issue_date, due_date := body.due_date,
             client_id := body.client_id, address := body.address,
             tax := body.tax, total := round2 (subtotal + body.tax) }],
        invoice_items := db.invoice_items ++ lineRows.map (fun lr =>
          ⟨db.nextInvoiceId, lr.product_id, lr.quantity,
           lr.unit_price, lr.line_total⟩),
        nextInvoiceId := db.nextInvoiceId + 1 } body.client_id = some c := hc
  have hfilter : (db.invoice_items ++ lineRows.map (fun lr =>
        (⟨db.nextInvoiceId, lr.product_id, lr.quantity,
          lr.unit_price, lr.line_total⟩ : InvoiceItemRow))).filter
      (fun it => it.invoice_id == db.nextInvoiceId) =
      lineRows.map (fun lr =>
        ⟨db.nextInvoiceId, lr.product_id, lr.quantity,
         lr.unit_price, lr.line_total⟩) := by
    rw [List.filter_append]
    rw [filter_eq_nil_of_false (fun a ha => by
      rw [beq_eq_false_iff_ne]
      exact Int.ne_of_lt (hwf.2 a ha))]
    rw [List.nil_append]
    apply filter_eq_self_of_true
    intro a ha
    obtain ⟨lr, _, rfl⟩ := List.mem_map.mp ha
    exact beq_self_eq_true db.nextInvoiceId
  have hjoin : (lineRows.map (fun lr =>
        (⟨db.nextInvoiceId, lr.product_id, lr.quantity,
          lr.unit_price, lr.line_total⟩ : InvoiceItemRow))).filterMap
      (fun it => (findProduct db it.product_id).map (fun p =>
        ({ product_id := it.product_id, product_name := p.name,
           quantity := it.quantity, unit_price := it.unit_price,
           line_total := it.line_total } : InvoiceItemResponse))) = lineRows := by
    rw [List.filterMap_map]
    apply filterMap_eq_self_of_some
    intro lr hlr
    obtain ⟨line, _, prod, hp, hlre⟩ := forall₂_exists_left hall lr hlr
    subst hlre
    simp [hp]
  have hfp : findProduct
      { clients := db.clients, products := db.products,
        invoices := db.invoices ++
          [{ id := db.nextInvoiceId, invoice_no := body.invoice_no,
             issue_date := body.issue_date, due_date := body.due_date,
             client_id := body.client_id, address := body.address,
             tax := body.tax, total := round2 (subtotal + body.tax) }],
        invoice_items := db.invoice_items ++ lineRows.map (fun lr =>
          ⟨db.nextInvoiceId, lr.product_id, lr.quantity,
           lr.unit_price, lr.line_total⟩),
        nextInvoiceId := db.nextInvoiceId + 1 } = findProduct db := rfl
  show get_invoice _ db.nextInvoiceId = _
  unfold get_invoice
  rw [hfi]
  simp only []
  rw [hfc]
  simp only [hfp, hfilter, hjoin]

-- --- Claim theorems ---

/-- C1: for every create request that succeeds, the total returned and
persisted equals `round(sum of the items' line_total values + tax, 2)`, and
the response has exactly one priced item per request item. -/
theorem claim_create_total_and_item_count (db : DB) (body : InvoiceCreate)
    (db2 : DB) (resp : InvoiceResponse)
    (h : create_invoice db body = (db2, .ok resp)) :
    resp.total = round2 ((resp.items.map (fun r => r.line_total)).sum + body.tax) ∧
    resp.items.length = body.items.length ∧
    ∃ row ∈ db2.invoices, row.id = resp.id ∧ row.total = resp.total := by
  obtain ⟨c, subtotal, lineRows, hc, hpl, hresp, hdb⟩ := create_invoice_ok db body db2 resp h
  obtain ⟨newRows, hrows, hs, hall⟩ := priceLines_ok_shape db _ _ _ _ _ hpl
  rw [List.nil_append] at hrows
  subst hrows
  subst hresp
  subst hdb
  refine ⟨?_, ?_, ?_⟩
  · show round2 (subtotal + body.tax) =
      round2 ((lineRows.map (fun r => r.line_total)).sum + body.tax)
    rw [hs, zero_add]
  · exact hall.length_eq.symm
  · exact ⟨_, List.mem_append_right _ (List.mem_singleton.mpr rfl), rfl, rfl⟩

/-- C1 witness: the spec's concrete scenario (two Widget A, one Widget B,
tax 5) instantiates the theorem; the total is 50.50. -/
theorem claim_create_total_and_item_count_witness :
    create_invoice seedDB body1 = (dbINV1, .ok respINV1) ∧
    (respINV1.total =
        round2 ((respINV1.items.map (fun r => r.line_total)).sum + body1.tax) ∧
      respINV1.items.length = body1.items.length ∧
      ∃ row ∈ dbINV1.invoices, row.id = respINV1.id ∧ row.total = respINV1.total) :=
  ⟨by decide, claim_create_total_and_item_count seedDB body1 dbINV1 respINV1 (by decide)⟩

/-- C2: each line's `line_total` is `round2` of `unit_price * quantity`
(the snapshot price of the resolved product), and the subtotal accumulator
of the pricing loop is exactly the sum of the rounded line totals — no
drift before the final rounding. -/
theorem claim_line_rounding_exact_accumulator (db : DB) (body : InvoiceCreate)
    (db2 : DB) (resp : InvoiceResponse)
    (h : create_invoice db body = (db2, .ok resp)) :
    List.Forall₂ (fun (line : InvoiceItemCreate) (r : InvoiceItemResponse) =>
        r.quantity = line.quantity ∧
        ∃ prod, findProduct db line.product_id = some prod ∧
          r.unit_price = prod.price ∧
          r.line_total = round2 (r.unit_price * r.quantity))
      body.items resp.items ∧
    ∃ subtotal, priceLines db body.items 0 [] = .ok (subtotal, resp.items) ∧
      subtotal = (resp.items.map (fun r => r.line_total)).sum := by
  obtain ⟨c, subtotal, lineRows, hc, hpl, hresp, hdb⟩ := create_invoice_ok db body db2 resp h
  obtain ⟨newRows, hrows, hs, hall⟩ := priceLines_ok_shape db _ _ _ _ _ hpl
  rw [List.nil_append] at hrows
  subst hrows
  subst hresp
  constructor
  · refine hall.imp ?_
    intro line r hr
    obtain ⟨prod, hp, hr⟩ := hr
    subst hr
    exact ⟨rfl, prod, hp, rfl, rfl⟩
  · refine ⟨subtotal, hpl, ?_⟩
    show subtotal = (lineRows.map (fun r => r.line_total)).sum
    rw [hs, zero_add]

/-- C2 witness: in the concrete scenario the line totals are 20.00 and
25.50 and the accumulator holds exactly 45.50. -/
theorem claim_line_rounding_exact_accumulator_witness :
    create_invoice seedDB body1 = (dbINV1, .ok respINV1) ∧
    (List.Forall₂ (fun (line : InvoiceItemCreate) (r : InvoiceItemResponse) =>
        r.quantity = line.quantity ∧
        ∃ prod, findProduct seedDB line.product_id = some prod ∧
          r.unit_price = prod.price ∧
          r.line_total = round2 (r.unit_price * r.quantity))
      body1.items respINV1.items ∧
    ∃ subtotal, priceLines seedDB body1.items 0 [] = .ok (subtotal, respINV1.items) ∧
      subtotal = (respINV1.items.map (fun r => r.line_total)).sum) :=
  ⟨by decide,
   claim_line_rounding_exact_accumulator seedDB body1 dbINV1 respINV1 (by decide)⟩

/-- C3: a create request whose `client_id` resolves to no client fails with
the 400 InvalidReference error "Invalid client_id" and leaves the store
exactly as it was. -/
theorem claim_invalid_client_rejected (db : DB) (body : InvoiceCreate)
    (h : findClient db body.client_id = none) :
    create_invoice db body = (db, .error ⟨400, "Invalid client_id"⟩) := by
  unfold create_invoice
  rw [h]

/-- C3 witness: client 99 does not exist in the seed data. -/
theorem claim_invalid_client_rejected_witness :
    findClient seedDB bodyBadClient.client_id = none ∧
    create_invoice seedDB bodyBadClient = (seedDB, .error ⟨400, "Invalid client_id"⟩) :=
  ⟨by decide, claim_invalid_client_rejected seedDB bodyBadClient (by decide)⟩

/-- C4: when the client resolves but some line's `product_id` does not, the
create fails with a 400 InvalidReference naming the first offending
product_id, and the store is exactly as it was — nothing is persisted for
the lines that did resolve. -/
theorem claim_invalid_product_all_or_nothing (db : DB) (body : InvoiceCreate)
    (c : ClientRow) (pre : List InvoiceItemCreate) (bad : InvoiceItemCreate)
    (rest : List InvoiceItemCreate)
    (hc : findClient db body.client_id = some c)
    (hsplit : body.items = pre ++ bad :: rest)
    (hpre : ∀ l ∈ pre, ∃ p, findProduct db l.product_id = some p)
    (hbad : findProduct db bad.product_id = none) :
    create_invoice db body =
      (db, .error ⟨400, "Invalid product_id: " ++ toString bad.product_id⟩) := by
  unfold create_invoice
  rw [hc, hsplit, priceLines_error_at db pre bad rest 0 [] hpre hbad]

/-- C4 witness: the second line references product 77, which does not
exist; the first line (product 1) is valid, yet nothing is persisted. -/
theorem claim_invalid_product_all_or_nothing_witness :
    findClient seedDB bodyBadProduct.client_id = some ⟨1, "Acme Corp", "123 Main St, City A", "REG-001"⟩ ∧
    bodyBadProduct.items = [⟨1, 2⟩] ++ (⟨77, 1⟩ : InvoiceItemCreate) :: [] ∧
    (∀ l ∈ ([⟨1, 2⟩] : List InvoiceItemCreate), ∃ p, findProduct seedDB l.product_id = some p) ∧
    findProduct seedDB (77 : Int) = none ∧
    create_invoice seedDB bodyBadProduct =
      (seedDB, .error ⟨400, "Invalid product_id: " ++ toString (77 : Int)⟩) := by
  refine ⟨by decide, by decide, ?_, by decide, ?_⟩
  · intro l hl
    rw [List.mem_singleton] at hl
    subst hl
    exact ⟨⟨1, "Widget A", 10⟩, by decide⟩
  · refine claim_invalid_product_all_or_nothing seedDB bodyBadProduct
      ⟨1, "Acme Corp", "123 Main St, City A", "REG-001"⟩ [⟨1, 2⟩] ⟨77, 1⟩ []
      (by decide) (by decide) ?_ (by decide)
    intro l hl
    rw [List.mem_singleton] at hl
    subst hl
    exact ⟨⟨1, "Widget A", 10⟩, by decide⟩

/-- C6: every list endpoint reports the total row count, serves the page
slice of the id-sorted rows (ranks `(page-1)*size+1 .. page*size`), and
computes `total_pages` as the ceiling of `total / size`. -/
theorem claim_list_pagination_contract (db : DB) (page size : Nat)
    (hp : 1 ≤ page) (hs1 : 1 ≤ size) (hs2 : size ≤ 100) :
    ((list_invoices db page size).pagination.total = db.invoices.length ∧
      (list_invoices db page size).pagination.total_pages = db.invoices.length ⌈/⌉ size ∧
      ∃ L, List.Perm L db.invoices ∧
        L.Sorted (fun a b => a.id ≤ b.id) ∧
        (list_invoices db page size).invoices =
          ((L.drop ((page - 1) * size)).take size).map
            (fun r => ⟨r.id, r.invoice_no, r.issue_date, r.due_date, r.total⟩)) ∧
    ((list_clients db page size).pagination.total = db.clients.length ∧
      (list_clients db page size).pagination.total_pages = db.clients.length ⌈/⌉ size ∧
      ∃ L, List.Perm L db.clients ∧
        L.Sorted (fun a b => a.id ≤ b.id) ∧
        (list_clients db page size).clients =
          ((L.drop ((page - 1) * size)).take size).map _row_to_client_ref) ∧
    ((list_products db page size).pagination.total = db.products.length ∧
      (list_products db page size).pagination.total_pages = db.products.length ⌈/⌉ size ∧
      ∃ L, List.Perm L db.products ∧
        L.Sorted (fun a b => a.id ≤ b.id) ∧
        (list_products db page size).products =
          ((L.drop ((page - 1) * size)).take size).map
            (fun p => ⟨p.id, p.name, p.price⟩)) := by
  have hpages : ∀ total : Nat, totalPagesOf total size = total ⌈/⌉ size := by
    intro total
    rw [Nat.ceilDiv_eq_add_pred_div, totalPagesOf, if_pos (by omega)]
  refine ⟨⟨rfl, hpages _, ?_⟩, ⟨rfl, hpages _, ?_⟩, ⟨rfl, hpages _, ?_⟩⟩
  · exact ⟨sortByKey (fun i => i.id) db.invoices,
      sortByKey_perm _ _, sorted_sortByKey _ _, rfl⟩
  · exact ⟨sortByKey (fun c => c.id) db.clients,
      sortByKey_perm _ _, sorted_sortByKey _ _, rfl⟩
  · exact ⟨sortByKey (fun p => p.id) db.products,
      sortByKey_perm _ _, sorted_sortByKey _ _, rfl⟩

/-- C6 witness: with 11 invoices, page 2 of size 10 serves exactly the
invoice of rank 11 (id 11) and `total_pages = 2 = ceil(11/10)`. -/
theorem claim_list_pagination_contract_witness :
    (1 ≤ 2 ∧ 1 ≤ 10 ∧ 10 ≤ 100) ∧
    (list_invoices bigDB 2 10).pagination.total = bigDB.invoices.length ∧
    ((list_invoices bigDB 2 10).invoices.map (fun r => r.id) = [11] ∧
      (list_invoices bigDB 2 10).pagination.total_pages = 2) :=
  ⟨by decide,
   ((claim_list_pagination_contract bigDB 2 10 (by decide) (by decide) (by decide)).1).1,
   by decide, by decide⟩

/-- C7: deleting an absent invoice signals 404 and changes nothing;
deleting a present one removes exactly the rows of that invoice (its items
and the invoice row), touches no other table, and a subsequent get on the
id is a 404. -/
theorem claim_delete_invoice_spec (db : DB) (iid : Int) :
    (findInvoice db iid = none →
      delete_invoice db iid = (db, .error ⟨404, "Invoice not found"⟩)) ∧
    (∀ inv, findInvoice db iid = some inv →
      (delete_invoice db iid).2 = .ok () ∧
      (delete_invoice db iid).1.invoices = db.invoices.filter (fun i => !(i.id == iid)) ∧
      (delete_invoice db iid).1.invoice_items =
        db.invoice_items.filter (fun it => !(it.invoice_id == iid)) ∧
      (delete_invoice db iid).1.clients = db.clients ∧
      (delete_invoice db iid).1.products = db.products ∧
      get_invoice (delete_invoice db iid).1 iid = .error ⟨404, "Invoice not found"⟩) := by
  constructor
  · intro h
    unfold delete_invoice
    rw [h]
  · intro inv h
    have hd : delete_invoice db iid =
        ({ db with
            invoice_items := db.invoice_items.filter (fun it => !(it.invoice_id == iid)),
            invoices := db.invoices.filter (fun i => !(i.id == iid)) },
         .ok ()) := by
      unfold delete_invoice
      rw [h]
    rw [hd]
    refine ⟨rfl, rfl, rfl, rfl, rfl, ?_⟩
    have hfi : (db.invoices.filter (fun i => !(i.id == iid))).find?
        (fun i => i.id == iid) = none := by
      rw [List.find?_eq_none]
      intro a ha hmem
      have := (List.mem_filter.mp ha).2
      rw [hmem] at this
      cases this
    unfold get_invoice findInvoice
    simp only []
    rw [hfi]

/-- C7 witness: deleting invoice 1 from the store with one invoice removes
its two items and the row; deleting from the empty seed store is a 404. -/
theorem claim_delete_invoice_spec_witness :
    (findInvoice seedDB 1 = none ∧
      delete_invoice seedDB 1 = (seedDB, .error ⟨404, "Invoice not found"⟩)) ∧
    (findInvoice dbINV1 1 = some ⟨1, "INV-001", "2025-02-01", "2025-02-28", 1, "123 Main St", 5, 50.5⟩ ∧
      (delete_invoice dbINV1 1).1.invoices = [] ∧
      (delete_invoice dbINV1 1).1.invoice_items = [] ∧
      get_invoice (delete_invoice dbINV1 1).1 1 = .error ⟨404, "Invoice not found"⟩) := by
  refine ⟨⟨by decide, (claim_delete_invoice_spec seedDB 1).1 (by decide)⟩,
          by decide, by decide, by decide,
          ((claim_delete_invoice_spec dbINV1 1).2
            ⟨1, "INV-001", "2025-02-01", "2025-02-28", 1, "123 Main St", 5, 50.5⟩
            (by decide)).2.2.2.2.2⟩

/-- C9 counterexample: a create request with an empty `invoice_no` passes
the request-schema validation and the invoice is created — it is not
rejected as a ValidationError. -/
theorem claim_validation_boundary_counterexample :
    validInvoiceCreate bodyEmptyNo = true ∧
    bodyEmptyNo.invoice_no = "" ∧
    (post_invoices seedDB bodyEmptyNo).2 = .ok respEmptyNo := by
  refine ⟨by decide, rfl, by decide⟩

/-- C9 amended: out-of-range pagination parameters and the listed body
violations other than the empty `invoice_no` (empty items, non-positive
quantity, negative tax) are rejected with 422 at the schema boundary, the
store untouched; an empty `invoice_no` is not validated against. -/
theorem claim_validation_boundary_amended (db : DB) (page size : Int)
    (body : InvoiceCreate) :
    ((page < 1 ∨ size < 1 ∨ 100 < size) →
      get_invoices_route db page size = .error validationError ∧
      get_clients_route db page size = .error validationError ∧
      get_products_route db page size = .error validationError) ∧
    ((body.items = [] ∨ (∃ it ∈ body.items, it.quantity ≤ 0) ∨ body.tax < 0) →
      post_invoices db body = (db, .error validationError)) := by
  constructor
  · intro h
    have hv : validListParams page size = false := by
      rcases h with h | h | h <;>
        simp [validListParams, decide_eq_false_iff_not, not_le, h]
    rw [get_invoices_route, get_clients_route, get_products_route, hv]
    exact ⟨by simp, by simp, by simp⟩
  · intro h
    have hv : validInvoiceCreate body = false := by
      rcases h with h | ⟨it, hit, hq⟩ | h
      · simp [validInvoiceCreate, h]
      · unfold validInvoiceCreate
        have : body.items.all (fun it => decide (0 < it.quantity)) = false := by
          rw [List.all_eq_false]
          exact ⟨it, hit, by simp [not_lt, hq]⟩
        simp [this]
      · simp [validInvoiceCreate, decide_eq_false_iff_not, not_le, h]
    rw [post_invoices, hv]
    simp

/-- C9 amended witness: page 0 is rejected on all list endpoints, and a
request with quantity 0 is rejected at the boundary with the store
untouched. -/
theorem claim_validation_boundary_amended_witness :
    ((0 : Int) < 1 ∨ (10 : Int) < 1 ∨ (100 : Int) < 10) ∧
    get_invoices_route seedDB 0 10 = .error validationError ∧
    (post_invoices seedDB { body1 with items := [⟨1, 0⟩] } =
      (seedDB, .error validationError)) := by
  refine ⟨Or.inl (by decide), ?_, ?_⟩
  · exact ((claim_validation_boundary_amended seedDB 0 10 body1).1
      (Or.inl (by decide))).1
  · refine (claim_validation_boundary_amended seedDB 0 10
      { body1 with items := [⟨1, 0⟩] }).2 (Or.inr (Or.inl ?_))
    exact ⟨⟨1, 0⟩, by decide, le_refl 0⟩

/-- C10: an invoice row whose `client_id` matches no client is reported by
`get_invoice` as the same 404 "Invoice not found" that a nonexistent
invoice id produces. -/
theorem claim_get_dangling_client_not_found (db : DB) (iid : Int)
    (inv : InvoiceRow)
    (hinv : findInvoice db iid = some inv)
    (hc : findClient db inv.client_id = none) :
    get_invoice db iid = .error ⟨404, "Invoice not found"⟩ ∧
    (∀ j, findInvoice db j = none →
      get_invoice db j = .error ⟨404, "Invoice not found"⟩) := by
  constructor
  · simp [get_invoice, hinv, hc]
  · intro j hj
    simp [get_invoice, hj]

/-- C10 witness: the corrupt store holds invoice 1 with dangling client 99;
`get_invoice` answers 404, exactly as for the absent id 2. -/
theorem claim_get_dangling_client_not_found_witness :
    findInvoice corruptDB 1 =
      some ⟨1, "INV-900", "2025-01-01", "2025-02-01", 99, "x", 0, 10⟩ ∧
    findClient corruptDB 99 = none ∧
    get_invoice corruptDB 1 = .error ⟨404, "Invoice not found"⟩ :=
  ⟨by decide, by decide,
   (claim_get_dangling_client_not_found corruptDB 1
      ⟨1, "INV-900", "2025-01-01", "2025-02-01", 99, "x", 0, 10⟩
      (by decide) (by decide)).1⟩

/-- C8: after a successful create, `get_invoice` on the returned id gives
back the same client reference, the same priced items, and the same total
as the create response. -/
theorem claim_create_get_roundtrip (db : DB) (body : InvoiceCreate) (db2 : DB)
    (resp : InvoiceResponse) (hwf : WF db)
    (h : create_invoice db body = (db2, .ok resp)) :
    ∃ g, get_invoice db2 resp.id = .ok g ∧
      g.client = resp.client ∧ g.items = resp.items ∧ g.total = resp.total :=
  ⟨resp, get_after_create db body db2 resp hwf h, rfl, rfl, rfl⟩

/-- C8 witness: the concrete scenario round-trips through the store. -/
theorem claim_create_get_roundtrip_witness :
    WF seedDB ∧
    create_invoice seedDB body1 = (dbINV1, .ok respINV1) ∧
    ∃ g, get_invoice dbINV1 respINV1.id = .ok g ∧
      g.client = respINV1.client ∧ g.items = respINV1.items ∧
      g.total = respINV1.total :=
  ⟨WF_seedDB, by decide,
   claim_create_get_roundtrip seedDB body1 dbINV1 respINV1 WF_seedDB (by decide)⟩

/-- C5 counterexample: creating the same `invoice_no` twice makes the
second call fail with status 500 — the route's generic Internal error
status — not a distinct conflict/integrity status; the first invoice stays
retrievable. -/
theorem claim_duplicate_conflict_counterexample :
    create_invoice dbINV1 body1 =
      (dbINV1, .error ⟨500, "UNIQUE constraint failed: invoices.invoice_no"⟩) ∧
    (∀ e, (create_invoice dbINV1 body1).2 = .error e → e.status = 500) ∧
    get_invoice dbINV1 1 = .ok respINV1 := by
  refine ⟨by decide, ?_, by decide⟩
  intro e he
  have h2 : (create_invoice dbINV1 body1).2 =
      .error ⟨500, "UNIQUE constraint failed: invoices.invoice_no"⟩ := by decide
  rw [h2] at he
  cases he
  rfl

/-- C5 amended: the duplicate `invoice_no` is rejected by the store-level
uniqueness constraint, but the route surfaces it as the generic Internal
error (status 500) carrying the constraint message, with the store
unchanged; the first invoice remains retrievable. -/
theorem claim_duplicate_invoice_no_internal (db : DB) (body body2 : InvoiceCreate)
    (db2 : DB) (resp : InvoiceResponse) (c2 : ClientRow)
    (hwf : WF db)
    (h : create_invoice db body = (db2, .ok resp))
    (hno : body2.invoice_no = body.invoice_no)
    (hc2 : findClient db2 body2.client_id = some c2)
    (hres : ∀ l ∈ body2.items, ∃ p, findProduct db2 l.product_id = some p) :
    create_invoice db2 body2 =
      (db2, .error ⟨500, "UNIQUE constraint failed: invoices.invoice_no"⟩) ∧
    get_invoice db2 resp.id = .ok resp := by
  have hget := get_after_create db body db2 resp hwf h
  obtain ⟨c, subtotal, lineRows, hc, hpl, hresp, hdb⟩ := create_invoice_ok db body db2 resp h
  refine ⟨?_, hget⟩
  obtain ⟨s, rows, hplo⟩ := priceLines_ok_of_resolve db2 body2.items 0 [] hres
  unfold create_invoice
  rw [hc2, hplo]
  have hdup : db2.invoices.any (fun r => r.invoice_no == body2.invoice_no) = true := by
    rw [List.any_eq_true]
    refine ⟨{ id := db.nextInvoiceId, invoice_no := body.invoice_no,
              issue_date := body.issue_date, due_date := body.due_date,
              client_id := body.client_id, address := body.address,
              tax := body.tax, total := round2 (subtotal + body.tax) }, ?_, ?_⟩
    · rw [hdb]
      exact List.mem_append_right _ (List.mem_singleton.mpr rfl)
    · rw [hno]
      exact beq_self_eq_true body.invoice_no
  simp [insertInvoice, hdup]

/-- C5 amended witness: re-posting `body1` against the store that already
holds invoice INV-001 yields the 500 with the UNIQUE-constraint message,
and invoice 1 is still readable. -/
theorem claim_duplicate_invoice_no_internal_witness :
    WF seedDB ∧
    create_invoice seedDB body1 = (dbINV1, .ok respINV1) ∧
    findClient dbINV1 body1.client_id =
      some ⟨1, "Acme Corp", "123 Main St, City A", "REG-001"⟩ ∧
    (create_invoice dbINV1 body1 =
      (dbINV1, .error ⟨500, "UNIQUE constraint failed: invoices.invoice_no"⟩) ∧
     get_invoice dbINV1 respINV1.id = .ok respINV1) := by
  refine ⟨WF_seedDB, by decide, by decide, ?_⟩
  refine claim_duplicate_invoice_no_internal seedDB body1 body1 dbINV1 respINV1
    ⟨1, "Acme Corp", "123 Main St, City A", "REG-001"⟩
    WF_seedDB (by decide) rfl (by decide) ?_
  intro l hl
  rcases List.mem_cons.mp hl with rfl | hl
  · exact ⟨⟨1, "Widget A", 10⟩, by decide⟩
  · rcases List.mem_cons.mp hl with rfl | hl
    · exact ⟨⟨2, "Widget B", 25.5⟩, by decide⟩
    · cases hl

end Invoicing
